import Mathlib

/-!
Verification development for the Voice AI Performance Optimizer backend.

The definitions below are a shallow embedding of the TypeScript core:

- the LLM judge (`LLMClient.evaluateResponse`),
- the retry/backoff wrapper (`LLMClient.withRetry`),
- the test-suite synthesis normalization (`OptimizerService.generateTestSuite`),
- the mongoose schema validators (`TestSuite.ts`, `OptimizedPrompt.ts`),
- the conversation simulator (`HighLevelClient.simulateConversation`),
- the batch executor (`OptimizerService.executeTests`),
- the optimization loop (`OptimizerService.optimize`),
- the audit-record delete hooks (`OptimizationRecord` schema).

Modelling conventions:

- Finite JavaScript numbers are embedded as rationals; a JavaScript number
  that may be non-finite (NaN from 0/0) is `Option ℚ` with `none` standing
  for the non-finite value.  JS comparisons on such values follow IEEE
  semantics: every comparison with NaN is false.
- External LLM/HTTP calls are non-deterministic; they are passed in as
  oracle functions, so the embedded control flow is exactly the code's.
- Generated UUIDs, timestamps and log output are irrelevant to all claims
  and are omitted; fresh ids are taken as parameters where the code calls
  uuidv4().
-/

namespace VoiceAI

/-! ## JavaScript value and number helpers -/

/-- Abstraction of an arbitrary JavaScript value as the code observes it:
its `String(...)` rendering, its truthiness, and whether `typeof` is
string.  `vstr s` is a string value (truthy iff nonempty); `vother r b`
is any non-string value with rendering `r` and truthiness `b`. -/
inductive JsVal where
  | vstr (s : String)
  | vother (render : String) (truthy : Bool)
deriving DecidableEq, Repr

/-- Truthiness of a JavaScript value (empty string is falsy). -/
def JsVal.isTruthy : JsVal → Bool
  | .vstr s => s ≠ ""
  | .vother _ b => b

/-- The result of JavaScript `String(v)`. -/
def JsVal.render : JsVal → String
  | .vstr s => s
  | .vother r _ => r

/-- True iff `typeof v === 'string'` and `v.length > 0`. -/
def JsVal.isNonemptyStr : JsVal → Bool
  | .vstr s => s ≠ ""
  | .vother _ _ => false

/-- JavaScript `a || d` for an optional string `a` (absent or empty falls
through to the default `d`). -/
def jsOrStr (v : Option String) (d : String) : String :=
  match v with
  | some s => if s = "" then d else s
  | none => d

/-- JavaScript division of finite numbers: `0/0` (and any `x/0`) is
non-finite, embedded as `none`. -/
def jsDiv (a b : ℚ) : Option ℚ :=
  if b = 0 then none else some (a / b)

/-- JavaScript `a < c` where `a` may be NaN (`none`): NaN comparisons are
false. -/
def jsLtNum (a : Option ℚ) (c : ℚ) : Bool :=
  match a with
  | some x => decide (x < c)
  | none => false

/-- JavaScript `a >= c` where `a` may be NaN (`none`). -/
def jsGeNum (a : Option ℚ) (c : ℚ) : Bool :=
  match a with
  | some x => decide (c ≤ x)
  | none => false

/-- JavaScript `a > b` where either side may be NaN (`none`). -/
def jsGtNum (a b : Option ℚ) : Bool :=
  match a, b with
  | some x, some y => decide (y < x)
  | _, _ => false

/-! ## Judge: LLMClient.evaluateResponse -/

/-- Raw per-metric scores as parsed from the generator's JSON; `none`
stands for a missing or non-finite entry (the code's `m || 0` fallback). -/
structure RawMetrics where
  relevance : Option ℚ
  accuracy : Option ℚ
  completeness : Option ℚ
  helpfulness : Option ℚ
deriving DecidableEq, Repr

/-- Untrusted judge output parsed from the generator: whatever `passed`,
`score`, `reasoning` and `metrics` the model chose to return. -/
structure RawEval where
  passed : Bool
  score : Option ℚ
  reasoning : Option String
  metrics : Option RawMetrics
deriving DecidableEq, Repr

/-- Per-evaluation performance metrics (all finite after clamping). -/
structure PerformanceMetrics where
  relevance : ℚ
  accuracy : ℚ
  completeness : ℚ
  helpfulness : ℚ
deriving DecidableEq, Repr

/-- Result of `LLMClient.evaluateResponse` after clamping and
re-aggregation. -/
structure EvalResult where
  passed : Bool
  score : ℚ
  reasoning : String
  metrics : PerformanceMetrics
deriving DecidableEq, Repr

/-- The code's `Math.max(0, Math.min(1, x))`. -/
def clamp01 (x : ℚ) : ℚ := max 0 (min 1 x)

/-- JavaScript `x || 0` on a possibly-missing numeric field. -/
def orZero (v : Option ℚ) : ℚ := v.getD 0

/-- Embedding of `LLMClient.evaluateResponse` (part_005, lines 469-485):
clamp each of the four sub-metrics to the unit interval, recompute the
overall score as their arithmetic mean, and derive `passed` from the 0.7
threshold.  The generator-supplied `passed` and `score` fields of the raw
response are ignored. -/
def evaluateResponse (raw : RawEval) : EvalResult :=
  let m := raw.metrics.getD ⟨some 0, some 0, some 0, some 0⟩
  let relevance := clamp01 (orZero m.relevance)
  let accuracy := clamp01 (orZero m.accuracy)
  let completeness := clamp01 (orZero m.completeness)
  let helpfulness := clamp01 (orZero m.helpfulness)
  let overallScore := (relevance + accuracy + completeness + helpfulness) / 4
  { passed := decide ((7 : ℚ)/10 ≤ overallScore)
    score := clamp01 overallScore
    reasoning := jsOrStr raw.reasoning "No reasoning provided"
    metrics := ⟨relevance, accuracy, completeness, helpfulness⟩ }

/-! ## Resilient caller: LLMClient.withRetry -/

/-- Outcome of a single attempt of the wrapped operation: success, an
axios HTTP error carrying a status and an optional parsed retry-after
header, or a network/timeout failure with no HTTP status. -/
inductive CallOutcome (α : Type) where
  | success (val : α)
  | httpError (status : Nat) (retryAfter : Option Nat)
  | networkError
deriving DecidableEq, Repr

/-- Observable trace of one `withRetry` run: the value or the thrown
error (`none` = the initial `null` lastError), the number of operation
invocations, and the sleeps performed, in ms. -/
structure RetryTrace (α : Type) where
  result : Except (Option (CallOutcome α)) α
  calls : Nat
  sleepsMs : List Nat
deriving Repr

/-- A 4xx status other than 429 aborts with no retry. -/
def fatalStatus (s : Nat) : Bool :=
  decide (400 ≤ s) && decide (s < 500) && decide (s ≠ 429)

/-- Embedding of the retry loop of `LLMClient.withRetry` (part_005,
lines 76-114).  `fuel` is the number of loop iterations remaining
(`maxRetries - attempt`); the code's `attempt < maxRetries - 1` guard on
the backoff sleep is `fuel ≠ 0` after consuming this iteration.  A 429
sleeps the retry-after duration (default 60 s) and `continue`s, which in
the source still advances the `for` counter. -/
def withRetryGo (op : Nat → CallOutcome α) (attempt : Nat)
    (lastErr : Option (CallOutcome α)) : Nat → RetryTrace α
  | 0 => ⟨.error lastErr, 0, []⟩
  | fuel + 1 =>
    match op attempt with
    | .success v => ⟨.ok v, 1, []⟩
    | .httpError s ra =>
      if fatalStatus s then ⟨.error (some (.httpError s ra)), 1, []⟩
      else if s = 429 then
        let t := withRetryGo op (attempt + 1) (some (.httpError s ra)) fuel
        ⟨t.result, t.calls + 1, (ra.getD 60) * 1000 :: t.sleepsMs⟩
      else
        let t := withRetryGo op (attempt + 1) (some (.httpError s ra)) fuel
        if fuel = 0 then ⟨t.result, t.calls + 1, t.sleepsMs⟩
        else ⟨t.result, t.calls + 1, 2 ^ attempt * 1000 :: t.sleepsMs⟩
    | .networkError =>
      let t := withRetryGo op (attempt + 1) (some .networkError) fuel
      if fuel = 0 then ⟨t.result, t.calls + 1, t.sleepsMs⟩
      else ⟨t.result, t.calls + 1, 2 ^ attempt * 1000 :: t.sleepsMs⟩

/-- Embedding of `LLMClient.withRetry`; the code's default budget is
`maxRetries = 3`. -/
def withRetry (op : Nat → CallOutcome α) (maxRetries : Nat) : RetryTrace α :=
  withRetryGo op 0 none maxRetries

/-! ## Test synthesis normalization: OptimizerService.generateTestSuite -/

/-- A raw conversation turn as returned by the generator: either a bare
string or an object, kept as an ordered field list (JS key insertion
order, first occurrence wins on lookup). -/
inductive RawTurn where
  | str (s : String)
  | obj (fields : List (String × JsVal))
deriving DecidableEq, Repr

/-- Property lookup on a raw turn object. -/
def jsField (fields : List (String × JsVal)) (k : String) : Option JsVal :=
  (fields.find? (fun p => p.1 = k)).map (·.2)

/-- JavaScript `a || b || ... || ''` over a chain of property lookups:
the first defined truthy value is rendered with `String(...)`; if all are
absent or falsy the result is the empty string. -/
def jsOrChain : List (Option JsVal) → String
  | [] => ""
  | some x :: rest => if x.isTruthy then x.render else jsOrChain rest
  | none :: rest => jsOrChain rest

/-- The string the code builds with
`String(turn.role || turn.speaker || turn.from || '')`.  A bare string
turn has none of these properties. -/
def rawTurnRoleStr : RawTurn → String
  | .str _ => ""
  | .obj fs => jsOrChain [jsField fs "role", jsField fs "speaker", jsField fs "from"]

/-- Role synonyms the normalizer maps to the canonical expected-agent
label, in the order tested by the code. -/
def roleSynonyms : List String := ["agent", "assistant", "expected-agent", "bot", "ai"]

/-- First defined truthy value among a chain of lookups (used for the
content-field probe, whose rendered string may itself be empty). -/
def firstTruthyVal : List (Option JsVal) → Option JsVal
  | [] => none
  | some x :: rest => if x.isTruthy then some x else firstTruthyVal rest
  | none :: rest => firstTruthyVal rest

/-- Content extraction from a raw turn object: probe the candidate keys
content/text/message/utterance/input/output in order; if none is truthy,
scan all fields in order for a nonempty string value under a key other
than `role`; otherwise the content stays empty. -/
def rawTurnContentStr (fs : List (String × JsVal)) : String :=
  match firstTruthyVal
      [jsField fs "content", jsField fs "text", jsField fs "message",
       jsField fs "utterance", jsField fs "input", jsField fs "output"] with
  | some x => x.render
  | none =>
    match fs.find? (fun p => p.2.isNonemptyStr && p.1 ≠ "role") with
    | some p => p.2.render
    | none => ""

/-- A normalized conversation-script turn.  Roles are kept as the literal
strings of the TypeScript union ("user" / "expected-agent" /
"actual-agent"). -/
structure ScriptTurn where
  role : String
  content : String
deriving DecidableEq, Repr

/-- Embedding of the per-turn normalization inside
`OptimizerService.generateTestSuite` (part_005, lines 803-843): map role
synonyms to "expected-agent" (anything else to "user"), extract content
with the probe/scan fallbacks, and synthesize a role-appropriate
placeholder when the content is still empty. -/
def normalizeTurn (t : RawTurn) : ScriptTurn :=
  let role := if roleSynonyms.contains (rawTurnRoleStr t).toLower
    then "expected-agent" else "user"
  let content :=
    match t with
    | .str s => s
    | .obj fs => rawTurnContentStr fs
  let content :=
    if content = "" then (if role = "user" then "Hello" else "How can I help you?")
    else content
  ⟨role, content⟩

/-- The canonical greeting turn the code prepends. -/
def greetingTurn : ScriptTurn := ⟨"user", "Hello"⟩

/-- Embedding of the script repair step (part_005, lines 845-848): if the
normalized script is empty or does not start with a user turn, prepend
the greeting turn. -/
def fixScript : List ScriptTurn → List ScriptTurn
  | [] => [greetingTurn]
  | t :: rest => if t.role = "user" then t :: rest else greetingTurn :: t :: rest

/-- A raw success criterion as returned by the generator. `weight` is
`some w` iff the field is present with a (finite) number; `required` is
`none` for null/undefined (the code uses nullish coalescing there). -/
structure RawCriterion where
  name : Option String
  criterion : Option String
  description : Option String
  ctype : Option String
  evaluatorType : Option String
  weight : Option ℚ
  required : Option Bool
deriving DecidableEq, Repr

/-- Evaluator descriptor attached to a normalized criterion, following
the `EvaluatorConfig` union of types/index.ts for the three kinds the
normalizer can produce. -/
inductive Evaluator where
  | llm (prompt : String) (threshold : ℚ)
  | keyword (keywords : List String) (matchAll : Bool)
  | regex (pattern : String) (flags : String)
deriving DecidableEq, Repr

/-- A normalized success criterion (ids generated with uuidv4() are
omitted). `ctype` is the unvalidated `sc.type || 'custom-llm'` string. -/
structure SuccessCriteria where
  name : String
  description : String
  ctype : String
  evaluator : Evaluator
  weight : ℚ
  required : Bool
deriving DecidableEq, Repr

/-- Embedding of the per-criterion normalization in
`OptimizerService.generateTestSuite` (part_005, lines 748-783). -/
def normalizeCriterion (sc : RawCriterion) : SuccessCriteria :=
  let evalType := (jsOrStr sc.evaluatorType "llm").toLower
  let llmEval := Evaluator.llm (jsOrStr sc.description (jsOrStr sc.name "Evaluate response")) (7/10)
  let evaluator :=
    if evalType = "llm" then llmEval
    else if evalType = "keyword" then Evaluator.keyword [jsOrStr sc.name "keyword"] false
    else if evalType = "regex" then Evaluator.regex ".*" "i"
    else llmEval
  { name := jsOrStr sc.name (jsOrStr sc.criterion "Unnamed Criterion")
    description := jsOrStr sc.description (jsOrStr sc.name "No description")
    ctype := jsOrStr sc.ctype "custom-llm"
    evaluator := evaluator
    weight := sc.weight.getD (33/100)
    required := sc.required.getD false }

/-- The single fallback criterion synthesized when no criteria survive
normalization (part_005, lines 786-796). -/
def fallbackCriterion : SuccessCriteria :=
  { name := "Response Quality"
    description := "Agent provides a helpful and appropriate response"
    ctype := "custom-llm"
    evaluator := Evaluator.llm "Evaluate if the response is helpful" (7/10)
    weight := 1
    required := true }

/-- Criteria normalization for one test case: map every raw criterion,
then synthesize the fallback if the result is empty. -/
def normalizeSuccessCriteria (raw : List RawCriterion) : List SuccessCriteria :=
  let cs := raw.map normalizeCriterion
  if cs.isEmpty then [fallbackCriterion] else cs

/-- A raw test case as returned by the generator; the script may live
under any of three keys (an array, even empty, is truthy in JS, so the
first present key wins). -/
structure RawTestCase where
  name : Option String
  description : Option String
  category : Option String
  conversationScript : Option (List RawTurn)
  conversation : Option (List RawTurn)
  script : Option (List RawTurn)
  successCriteria : Option (List RawCriterion)
  priority : Option String
  tags : Option (List String)
deriving DecidableEq, Repr

/-- A normalized test case in the persisted schema shape.  The enum-typed
fields (`category`, `priority`) are kept as the unvalidated strings the
code casts; mongoose enum validators check them at save time. -/
structure TestCase where
  id : String
  suiteId : String
  name : String
  description : String
  category : String
  conversationScript : List ScriptTurn
  successCriteria : List SuccessCriteria
  priority : String
  tags : List String
deriving DecidableEq, Repr

/-- The raw script chosen by
`tc.conversationScript || tc.conversation || tc.script || []`:
the first present array, even when empty. -/
def rawScriptOf (tc : RawTestCase) : List RawTurn :=
  ((tc.conversationScript.orElse fun _ => tc.conversation).orElse fun _ => tc.script).getD []

/-- Embedding of the whole per-test-case transformation in
`OptimizerService.generateTestSuite` (part_005, lines 746-861); `newId`
stands for the uuidv4() fresh identity. -/
def normalizeTestCase (newId suiteId category : String) (tc : RawTestCase) : TestCase :=
  { id := newId
    suiteId := suiteId
    name := jsOrStr tc.name "Unnamed Test"
    description := jsOrStr tc.description "No description"
    category := jsOrStr tc.category category
    conversationScript := fixScript ((rawScriptOf tc).map normalizeTurn)
    successCriteria := normalizeSuccessCriteria (tc.successCriteria.getD [])
    priority := jsOrStr tc.priority "medium"
    tags := tc.tags.getD [] }

/-! ## Mongoose schema validators: models/TestSuite.ts -/

/-- Enum values of `CriteriaType` (types/index.ts). -/
def criteriaTypeValues : List String :=
  ["contains", "not-contains", "sentiment", "action-taken",
   "information-collected", "tone", "custom-llm"]

/-- Enum values of `TestCategory`. -/
def testCategoryValues : List String :=
  ["happy-path", "edge-case", "adversarial", "compliance", "interruption", "clarification"]

/-- Enum values of `Priority`. -/
def priorityValues : List String := ["critical", "high", "medium", "low"]

/-- Enum values of the conversation-turn role union. -/
def turnRoleValues : List String := ["user", "expected-agent", "actual-agent"]

/-- Enum values of `TestSuiteStatus`. -/
def suiteStatusValues : List String := ["draft", "active", "archived"]

/-- Validation of one success criterion at the persistence boundary
(`SuccessCriteriaSchema`): required nonempty strings, the enum check on
the criteria type, `min: 0` / `max: 1` on the weight, and the custom
validator requiring weight at least 0.5 for required criteria. -/
def validCriterion (c : SuccessCriteria) : Bool :=
  c.name ≠ "" && c.description ≠ "" && criteriaTypeValues.contains c.ctype &&
  decide (0 ≤ c.weight) && decide (c.weight ≤ 1) &&
  (!c.required || decide ((1 : ℚ)/2 ≤ c.weight))

/-- Sum of the criteria weights of a list of criteria. -/
def criteriaWeightSum (cs : List SuccessCriteria) : ℚ :=
  (cs.map (·.weight)).sum

/-- Validation of one test case at the persistence boundary
(`TestCaseSchema`): required fields, enum checks, the script validator
(nonempty, first turn "user"), and the criteria validator (at least one
criterion, weights summing to 1 within 0.01). -/
def validTestCase (tc : TestCase) : Bool :=
  tc.id ≠ "" && tc.suiteId ≠ "" && tc.name ≠ "" && tc.description ≠ "" &&
  testCategoryValues.contains tc.category &&
  priorityValues.contains tc.priority &&
  (match tc.conversationScript with
   | [] => false
   | t :: _ => t.role = "user") &&
  tc.conversationScript.all (fun t => turnRoleValues.contains t.role && t.content ≠ "") &&
  !tc.successCriteria.isEmpty &&
  decide (|criteriaWeightSum tc.successCriteria - 1| < 1/100) &&
  tc.successCriteria.all validCriterion

/-- A test suite in the persisted schema shape. -/
structure TestSuite where
  id : String
  agentId : String
  name : String
  description : String
  testCases : List TestCase
  globalCriteria : List SuccessCriteria
  version : Nat
  status : String
deriving DecidableEq, Repr

/-- Validation of a whole suite (`TestSuiteSchema`): required fields, at
least one test case, unique test-case names, the status enum, and every
subdocument validator. -/
def validTestSuite (s : TestSuite) : Bool :=
  s.agentId ≠ "" && s.name ≠ "" && s.description ≠ "" &&
  suiteStatusValues.contains s.status &&
  !s.testCases.isEmpty &&
  decide ((s.testCases.map (·.name)).Nodup) &&
  s.testCases.all validTestCase &&
  s.globalCriteria.all validCriterion

/-- Persistence of a suite (`TestSuiteModel.create`): mongoose runs every
validator and rejects the whole document on any failure; nothing
partially valid is saved. -/
def saveTestSuite (s : TestSuite) : Except String TestSuite :=
  if validTestSuite s then .ok s else .error "ValidationError"

/-! ## Conversation simulator: HighLevelClient.simulateConversation -/

/-- One transcript turn; roles are the literal strings of the union
"user" / "assistant". -/
structure ChatMessage where
  role : String
  content : String
deriving DecidableEq, Repr

/-- Response of the target-agent chat endpoint. -/
structure ChatResponse where
  message : String
  conversationId : String
deriving DecidableEq, Repr

/-- A chat oracle standing for `HighLevelClient.chat`: agent id, user
message and the optional carried conversation id determine the reply. -/
def ChatOracle : Type := String → String → Option String → ChatResponse

/-- Recursive core of `HighLevelClient.simulateConversation` (part_006,
lines 164-176): push the scripted user turn, call the agent, thread the
returned conversation id, and push the assistant turn. -/
def simulateConversationFrom (chat : ChatOracle) (agentId : String) :
    List String → Option String → List ChatMessage × Option String
  | [], cid => ([], cid)
  | m :: rest, cid =>
    let r := chat agentId m cid
    let next := simulateConversationFrom chat agentId rest (some r.conversationId)
    (⟨"user", m⟩ :: ⟨"assistant", r.message⟩ :: next.1, next.2)

/-- Embedding of `HighLevelClient.simulateConversation`: the loop starts
with no conversation id. -/
def simulateConversation (chat : ChatOracle) (agentId : String)
    (messages : List String) : List ChatMessage × Option String :=
  simulateConversationFrom chat agentId messages none

/-! ## Batch executor: OptimizerService.executeTests -/

/-- Per-test metrics record pushed into `allMetrics` (finite numbers). -/
structure RunMetrics where
  relevance : ℚ
  accuracy : ℚ
  completeness : ℚ
  helpfulness : ℚ
  overall : ℚ
deriving DecidableEq, Repr

/-- Aggregate metrics of a batch; each field is a JS number that is NaN
(`none`) when the batch was empty. -/
structure AggregateMetrics where
  relevance : Option ℚ
  accuracy : Option ℚ
  completeness : Option ℚ
  helpfulness : Option ℚ
  overall : Option ℚ
deriving DecidableEq, Repr

/-- One criterion result inside an evaluation. -/
structure CriteriaResult where
  criterionId : String
  passed : Bool
  score : ℚ
  reasoning : String
deriving DecidableEq, Repr

/-- One judged test case, as built by `executeTests`. -/
structure Evaluation where
  testCaseId : String
  testCaseName : String
  passed : Bool
  criteriaResults : List CriteriaResult
  overallScore : ℚ
  reasoning : String
  confidence : ℚ
  conversation : List ChatMessage
deriving DecidableEq, Repr

/-- A judge oracle: the raw generator output for the i-th test of a
batch (the LLM call of `evaluateResponse`). -/
def EvalOracle : Type := Nat → RawEval

/-- Per-test loop of `executeTests` (part_005, lines 901-944): simulate
the scripted user messages, judge the transcript, and record the
evaluation and metrics. -/
def executeTestsGo (chat : ChatOracle) (evalO : EvalOracle) (agentId : String) :
    List TestCase → Nat → List Evaluation × List RunMetrics
  | [], _ => ([], [])
  | tc :: rest, i =>
    let userMessages := (tc.conversationScript.filter (fun t => t.role = "user")).map (·.content)
    let turns := (simulateConversation chat agentId userMessages).1
    let result := evaluateResponse (evalO i)
    let eval : Evaluation :=
      { testCaseId := tc.id
        testCaseName := tc.name
        passed := result.passed
        criteriaResults := [⟨tc.id, result.passed, result.score, result.reasoning⟩]
        overallScore := result.score
        reasoning := result.reasoning
        confidence := 85/100
        conversation := turns }
    let m : RunMetrics :=
      ⟨result.metrics.relevance, result.metrics.accuracy,
       result.metrics.completeness, result.metrics.helpfulness, result.score⟩
    let next := executeTestsGo chat evalO agentId rest (i + 1)
    (eval :: next.1, m :: next.2)

/-- Result of one batch run. -/
structure ExecResult where
  evaluations : List Evaluation
  passRate : Option ℚ
  overallScore : Option ℚ
  metrics : AggregateMetrics
deriving DecidableEq, Repr

/-- Embedding of `OptimizerService.executeTests` (part_005, lines
887-961).  The aggregates divide by the list lengths exactly as the code
does; on an empty batch every division is JavaScript `0/0`. -/
def executeTests (chat : ChatOracle) (evalO : EvalOracle) (agentId : String)
    (testCases : List TestCase) : ExecResult :=
  let run := executeTestsGo chat evalO agentId testCases 0
  let evaluations := run.1
  let allMetrics := run.2
  let passRate := jsDiv ((evaluations.filter (·.passed)).length : ℚ) (evaluations.length : ℚ)
  let overallScore := jsDiv ((evaluations.map (·.overallScore)).sum) (evaluations.length : ℚ)
  { evaluations := evaluations
    passRate := passRate
    overallScore := overallScore
    metrics :=
      { relevance := jsDiv ((allMetrics.map (·.relevance)).sum) (allMetrics.length : ℚ)
        accuracy := jsDiv ((allMetrics.map (·.accuracy)).sum) (allMetrics.length : ℚ)
        completeness := jsDiv ((allMetrics.map (·.completeness)).sum) (allMetrics.length : ℚ)
        helpfulness := jsDiv ((allMetrics.map (·.helpfulness)).sum) (allMetrics.length : ℚ)
        overall := overallScore } }

/-! ## Optimization loop: OptimizerService.optimize -/

/-- A failure pattern produced by the insight generation call. -/
structure FailurePattern where
  description : String
  affectedTestCases : List String
  frequency : ℚ
  severity : String
  suggestedFix : String
deriving DecidableEq, Repr

/-- Output of `LLMClient.generateInsights` (advisory text only). -/
structure Insights where
  failurePatterns : List FailurePattern
  recommendations : List String
  prioritizedFixes : List String
deriving DecidableEq, Repr

/-- One itemized prompt change. -/
structure PromptChange where
  ctype : String
  description : String
  targetedFailure : String
deriving DecidableEq, Repr

/-- Output of `LLMClient.optimizePrompt`. -/
structure PromptOptimization where
  optimizedPrompt : String
  changes : List PromptChange
  explanation : String
deriving DecidableEq, Repr

/-- A persisted `OptimizedPrompt` document (models/OptimizedPrompt.ts).
The schema declares `agentId` unique, so a store holds at most one
record per agent. -/
structure OptimizedPromptRec where
  agentId : String
  originalPrompt : String
  optimizedPrompt : String
  score : Option ℚ
  iterations : Nat
deriving DecidableEq, Repr

/-- Embedding of
`OptimizedPromptModel.findOneAndUpdate(filter, doc, upsert: true)`:
replace the first record with the same agent id, or append the new
record when none matches. -/
def upsertByAgent : List OptimizedPromptRec → OptimizedPromptRec → List OptimizedPromptRec
  | [], r => [r]
  | x :: xs, r => if x.agentId = r.agentId then r :: xs else x :: upsertByAgent xs r

/-- Environment of one optimization run: the external collaborators,
indexed by call order.  `chat` and `runEval` are indexed by the run
number (the agent's behavior changes when its prompt is updated between
runs); `insightsO` and `optimizeO` by how many times each generation
call was already made. -/
structure OptEnv where
  chat : Nat → ChatOracle
  runEval : Nat → EvalOracle
  insightsO : Nat → Insights
  optimizeO : Nat → PromptOptimization

/-- Mutable state of the optimization loop, plus counters for the
external calls actually issued. -/
structure LoopState where
  iteration : Nat
  bestScore : Option ℚ
  currentPrompt : String
  bestPrompt : String
  allChanges : List PromptChange
  runIdx : Nat
  insightCalls : Nat
  optimizeCalls : Nat
deriving Repr

/-- Embedding of the `while` loop of `OptimizerService.optimize`
(part_005, lines 1016-1072).  `fuel` is `maxIterations - iteration`.
Note the code filters `initialResults.evaluations` (not the newest
results) for failures on every pass, and on a non-improving re-run keeps
the candidate prompt and breaks; the prompt update pushed to the agent
is reflected in the run-indexed oracles. -/
def optimizeLoopGo (env : OptEnv) (agentId : String) (testCases : List TestCase)
    (initialResults : ExecResult) : Nat → LoopState → LoopState
  | 0, s => s
  | fuel + 1, s =>
    if !jsLtNum s.bestScore 1 then s
    else
      let s := { s with iteration := s.iteration + 1 }
      if ((initialResults.evaluations.filter (fun e => !e.passed)).isEmpty) then s
      else
        let _insights := env.insightsO s.insightCalls
        let opt := env.optimizeO s.optimizeCalls
        let s := { s with
          currentPrompt := opt.optimizedPrompt
          allChanges := s.allChanges ++ opt.changes
          insightCalls := s.insightCalls + 1
          optimizeCalls := s.optimizeCalls + 1 }
        let newResults := executeTests (env.chat s.runIdx) (env.runEval s.runIdx) agentId testCases
        let s := { s with runIdx := s.runIdx + 1 }
        if jsGtNum newResults.overallScore s.bestScore then
          let s := { s with bestScore := newResults.overallScore, bestPrompt := s.currentPrompt }
          if jsGeNum s.bestScore 1 then s
          else optimizeLoopGo env agentId testCases initialResults fuel s
        else
          { s with bestPrompt := s.currentPrompt }

/-- Before/after test results reported by a run. -/
structure TestRunReport where
  passRate : Option ℚ
  evaluations : List Evaluation
deriving DecidableEq, Repr

/-- The value returned by `OptimizerService.optimize`. -/
structure OptimizationResult where
  success : Bool
  iterations : Nat
  initialScore : Option ℚ
  finalScore : Option ℚ
  originalPrompt : String
  optimizedPrompt : String
  changes : List PromptChange
  metrics : AggregateMetrics
  before : TestRunReport
  after : TestRunReport
deriving Repr

/-- Observable trace of one `optimize` run: its return value, the number
of insight / optimize generation calls issued, and the persisted
`OptimizedPrompt` store after the run. -/
structure OptTrace where
  result : OptimizationResult
  insightCalls : Nat
  optimizeCalls : Nat
  store : List OptimizedPromptRec
deriving Repr

/-- Embedding of `OptimizerService.optimize` (part_005, lines 968-1107):
run the initial batch; return immediately when the initial score is
already at least 1.0 (reporting before = after and issuing no
optimization calls); otherwise iterate, run a final batch, and upsert a
best-prompt record keyed by agent id only when the final score strictly
improved on the initial score. -/
def optimize (env : OptEnv) (store : List OptimizedPromptRec) (agentId : String)
    (testCases : List TestCase) (originalPrompt : String) (maxIterations : Nat) : OptTrace :=
  let initialResults := executeTests (env.chat 0) (env.runEval 0) agentId testCases
  let initialScore := initialResults.overallScore
  if jsGeNum initialScore 1 then
    { result :=
        { success := true
          iterations := 0
          initialScore := initialScore
          finalScore := initialScore
          originalPrompt := originalPrompt
          optimizedPrompt := originalPrompt
          changes := []
          metrics := initialResults.metrics
          before := ⟨initialResults.passRate, initialResults.evaluations⟩
          after := ⟨initialResults.passRate, initialResults.evaluations⟩ }
      insightCalls := 0
      optimizeCalls := 0
      store := store }
  else
    let s0 : LoopState :=
      ⟨0, initialScore, originalPrompt, originalPrompt, [], 1, 0, 0⟩
    let s := optimizeLoopGo env agentId testCases initialResults maxIterations s0
    let finalResults := executeTests (env.chat s.runIdx) (env.runEval s.runIdx) agentId testCases
    let improved := jsGtNum finalResults.overallScore initialScore
    { result :=
        { success := improved
          iterations := s.iteration
          initialScore := initialScore
          finalScore := finalResults.overallScore
          originalPrompt := originalPrompt
          optimizedPrompt := s.bestPrompt
          changes := s.allChanges
          metrics := finalResults.metrics
          before := ⟨initialResults.passRate, initialResults.evaluations⟩
          after := ⟨finalResults.passRate, finalResults.evaluations⟩ }
      insightCalls := s.insightCalls
      optimizeCalls := s.optimizeCalls
      store :=
        if improved then
          upsertByAgent store
            ⟨agentId, originalPrompt, s.bestPrompt, finalResults.overallScore, s.iteration⟩
        else store }

/-! ## Audit records: OptimizationRecord schema delete hooks -/

/-- Status state machine of an optimization audit record. -/
inductive OptimizationStatus where
  | pending
  | applied
  | validated
  | rolledBack
deriving DecidableEq, Repr

/-- The fields of an `OptimizationRecord` document relevant to deletion;
`recordId` stands for the Mongo `_id`. -/
structure OptimizationRecord where
  recordId : Nat
  agentId : String
  status : OptimizationStatus
deriving DecidableEq, Repr

/-- The error message raised by both delete hooks. -/
def auditErrorMsg : String :=
  "Cannot delete optimization record with status \"applied\" - audit trail must be preserved"

/-- Document-level `deleteOne` with the schema's
`pre('deleteOne', document: true)` hook (part_008, lines 113-118):
deleting a record in status applied errors out (the hook passes the
error to `next`, and mongoose ignores the later duplicate `next()`
call); otherwise the document is removed from the store. -/
def docDeleteOne (store : List OptimizationRecord) (r : OptimizationRecord) :
    Except String (List OptimizationRecord) :=
  if r.status = .applied then .error auditErrorMsg
  else .ok (store.eraseP (fun x => x.recordId == r.recordId))

/-- Query-level `deleteOne` with the schema's
`pre('deleteOne', query: true)` hook (part_008, lines 121-127): the hook
looks up the first document matching the filter and errors out when it
is in status applied; with no match nothing is deleted and no error is
raised. -/
def queryDeleteOne (store : List OptimizationRecord) (filter : OptimizationRecord → Bool) :
    Except String (List OptimizationRecord) :=
  match store.find? filter with
  | none => .ok store
  | some d =>
    if d.status = .applied then .error auditErrorMsg
    else .ok (store.eraseP filter)

/-! ## Auxiliary definitions and concrete sample data

The store-counting helper is used to state the at-most-one-record-per-
agent property; the sample environments below are concrete inputs for
witnesses and counterexamples. -/

/-- Number of persisted `OptimizedPrompt` records for a given agent. -/
def countAgent (store : List OptimizedPromptRec) (aid : String) : Nat :=
  (store.filter (fun r => r.agentId == aid)).length

/-- Raw judge output whose four metrics all equal `q`. -/
def rawEvalUniform (q : ℚ) : RawEval :=
  ⟨false, none, some "graded", some ⟨some q, some q, some q, some q⟩⟩

/-- A minimal schema-valid test case. -/
def sampleTestCase : TestCase :=
  { id := "tc-1"
    suiteId := "suite-1"
    name := "Greets the caller"
    description := "Basic greeting flow"
    category := "happy-path"
    conversationScript := [⟨"user", "Hi"⟩, ⟨"expected-agent", "Hello"⟩]
    successCriteria := [fallbackCriterion]
    priority := "high"
    tags := [] }

/-- A minimal schema-valid test suite holding `sampleTestCase`. -/
def sampleSuite : TestSuite :=
  ⟨"s-1", "agent-1", "Test Suite", "Auto-generated test suite", [sampleTestCase], [], 1, "active"⟩

/-- A chat oracle answering every message the same way. -/
def constChat : ChatOracle := fun _ _ _ => ⟨"Welcome to Bright Smile Dental Clinic!", "conv-1"⟩

/-- Environment whose very first batch judges every test perfectly. -/
def envPerfect : OptEnv :=
  { chat := fun _ => constChat
    runEval := fun _ _ => rawEvalUniform 1
    insightsO := fun _ => ⟨[], [], []⟩
    optimizeO := fun _ => ⟨"optimized", [], "noop"⟩ }

/-- Environment where the initial batch scores 3/10 and every later
batch scores 1/2. -/
def envImprove : OptEnv :=
  { chat := fun _ => constChat
    runEval := fun r _ => if r = 0 then rawEvalUniform (3/10) else rawEvalUniform (1/2)
    insightsO := fun _ => ⟨[⟨"misses prices", ["tc-1"], 1, "high", "add prices"⟩], ["add prices"], ["add prices"]⟩
    optimizeO := fun _ => ⟨"better prompt", [⟨"addition", "add services", "misses prices"⟩], "added details"⟩ }

/-- A store already holding a best record of score 9/10 for agent-1. -/
def prevStore : List OptimizedPromptRec :=
  [⟨"agent-1", "orig-0", "best-0", some (9/10), 1⟩]

/-- An audit record in status applied. -/
def appliedRec : OptimizationRecord := ⟨1, "agent-1", .applied⟩

/-- Operation failing with a network error once, then succeeding. -/
def opNetThenOk : Nat → CallOutcome Nat :=
  fun n => if n = 0 then .networkError else .success 7

/-! ## Helper lemmas -/

lemma clamp01_nonneg (x : ℚ) : 0 ≤ clamp01 x := le_max_left _ _

lemma clamp01_le_one (x : ℚ) : clamp01 x ≤ 1 :=
  max_le (by norm_num) (min_le_left _ _)

lemma clamp01_eq_self {x : ℚ} (h0 : 0 ≤ x) (h1 : x ≤ 1) : clamp01 x = x := by
  unfold clamp01
  rw [min_eq_right h1, max_eq_right h0]

lemma mean4_nonneg {r a c h : ℚ} (hr : 0 ≤ r) (ha : 0 ≤ a) (hc : 0 ≤ c) (hh : 0 ≤ h) :
    0 ≤ (r + a + c + h) / 4 := by positivity

lemma mean4_le_one {r a c h : ℚ} (hr : r ≤ 1) (ha : a ≤ 1) (hc : c ≤ 1) (hh : h ≤ 1) :
    (r + a + c + h) / 4 ≤ 1 := by
  rw [div_le_one (by norm_num : (0:ℚ) < 4)]
  linarith

/-! ## C1: the judge clamps, averages and thresholds -/

/-- C1. For every judged transcript, each of the four sub-metrics of
`evaluateResponse` lies in the unit interval (out-of-range parsed values
are clamped, not rejected), the overall score equals the arithmetic mean
of the four clamped sub-metrics, and `passed` holds exactly when the
overall score is at least 0.70 — regardless of the `passed` / `score`
values the generator itself returned (both are fields of `raw` that the
result provably never depends on). -/
theorem c1_evaluateResponse_clamps_and_averages (raw : RawEval) :
    (0 ≤ (evaluateResponse raw).metrics.relevance ∧ (evaluateResponse raw).metrics.relevance ≤ 1)
  ∧ (0 ≤ (evaluateResponse raw).metrics.accuracy ∧ (evaluateResponse raw).metrics.accuracy ≤ 1)
  ∧ (0 ≤ (evaluateResponse raw).metrics.completeness ∧ (evaluateResponse raw).metrics.completeness ≤ 1)
  ∧ (0 ≤ (evaluateResponse raw).metrics.helpfulness ∧ (evaluateResponse raw).metrics.helpfulness ≤ 1)
  ∧ (evaluateResponse raw).score =
      ((evaluateResponse raw).metrics.relevance + (evaluateResponse raw).metrics.accuracy
        + (evaluateResponse raw).metrics.completeness + (evaluateResponse raw).metrics.helpfulness) / 4
  ∧ ((evaluateResponse raw).passed = true ↔ (7:ℚ)/10 ≤ (evaluateResponse raw).score)
  ∧ (∀ (p2 : Bool) (s2 : Option ℚ),
      evaluateResponse { raw with passed := p2, score := s2 } = evaluateResponse raw) := by
  dsimp only [evaluateResponse]
  set m := raw.metrics.getD ⟨some 0, some 0, some 0, some 0⟩ with hm
  set r := clamp01 (orZero m.relevance) with hr
  set a := clamp01 (orZero m.accuracy) with ha
  set c := clamp01 (orZero m.completeness) with hc
  set h := clamp01 (orZero m.helpfulness) with hh
  have hmean0 : 0 ≤ (r + a + c + h) / 4 :=
    mean4_nonneg (hr ▸ clamp01_nonneg _) (ha ▸ clamp01_nonneg _)
      (hc ▸ clamp01_nonneg _) (hh ▸ clamp01_nonneg _)
  have hmean1 : (r + a + c + h) / 4 ≤ 1 :=
    mean4_le_one (hr ▸ clamp01_le_one _) (ha ▸ clamp01_le_one _)
      (hc ▸ clamp01_le_one _) (hh ▸ clamp01_le_one _)
  have hscore : clamp01 ((r + a + c + h) / 4) = (r + a + c + h) / 4 :=
    clamp01_eq_self hmean0 hmean1
  refine ⟨⟨hr ▸ clamp01_nonneg _, hr ▸ clamp01_le_one _⟩,
    ⟨ha ▸ clamp01_nonneg _, ha ▸ clamp01_le_one _⟩,
    ⟨hc ▸ clamp01_nonneg _, hc ▸ clamp01_le_one _⟩,
    ⟨hh ▸ clamp01_nonneg _, hh ▸ clamp01_le_one _⟩, hscore, ?_, fun _ _ => rfl⟩
  rw [hscore]
  exact decide_eq_true_iff

/-! ## C2: a perfect initial run converges immediately -/

/-- C2. If the initial batch run scores at least 1.0, `optimize`
terminates immediately as converged: `success` is true, `iterations` is
0, zero insight / optimize generation calls are issued, the reported
before and after test reports are equal (and the final score equals the
initial score), and the persisted store is untouched. -/
theorem c2_optimize_initial_perfect_converges (env : OptEnv) (store : List OptimizedPromptRec)
    (agentId : String) (testCases : List TestCase) (originalPrompt : String)
    (maxIterations : Nat) (t : OptTrace)
    (ht : t = optimize env store agentId testCases originalPrompt maxIterations)
    (h : jsGeNum (executeTests (env.chat 0) (env.runEval 0) agentId testCases).overallScore 1 = true) :
    t.result.success = true ∧ t.result.iterations = 0
  ∧ t.insightCalls = 0 ∧ t.optimizeCalls = 0
  ∧ t.result.before = t.result.after
  ∧ t.result.finalScore = t.result.initialScore
  ∧ t.store = store := by
  subst ht
  simp only [optimize, h, if_true]
  exact ⟨trivial, trivial, trivial, trivial, trivial, trivial, trivial⟩

/-- Witness for C2 at a concrete environment whose single test is judged
with all metrics equal to 1. -/
theorem c2_witness :
    (optimize envPerfect [] "agent-1" [sampleTestCase] "p0" 2).result.iterations = 0
  ∧ (optimize envPerfect [] "agent-1" [sampleTestCase] "p0" 2).optimizeCalls = 0
  ∧ (optimize envPerfect [] "agent-1" [sampleTestCase] "p0" 2).store = [] := by
  have h := c2_optimize_initial_perfect_converges envPerfect [] "agent-1" [sampleTestCase]
    "p0" 2 _ rfl (by with_unfolding_all rfl)
  exact ⟨h.2.1, h.2.2.2.1, h.2.2.2.2.2.2⟩

/-! ## C3: persistence of the best prompt -/

lemma jsGtNum_irrefl (a : Option ℚ) : jsGtNum a a = false := by
  cases a with
  | none => rfl
  | some x => simp [jsGtNum]

lemma countAgent_nil (aid : String) : countAgent [] aid = 0 := rfl

lemma countAgent_cons (x : OptimizedPromptRec) (xs : List OptimizedPromptRec) (aid : String) :
    countAgent (x :: xs) aid = (if x.agentId = aid then 1 else 0) + countAgent xs aid := by
  by_cases hx : x.agentId = aid
  · simp [countAgent, List.filter_cons, beq_iff_eq, hx, Nat.add_comm]
  · simp [countAgent, List.filter_cons, beq_iff_eq, hx]

lemma countAgent_upsert_ne (r : OptimizedPromptRec) (aid : String) (h : ¬ r.agentId = aid) :
    ∀ store, countAgent (upsertByAgent store r) aid = countAgent store aid := by
  intro store
  induction store with
  | nil => simp [upsertByAgent, countAgent_cons, countAgent_nil, h]
  | cons x xs ih =>
    by_cases hx : x.agentId = r.agentId
    · have hxa : ¬ x.agentId = aid := by rw [hx]; exact h
      simp [upsertByAgent, hx, countAgent_cons, h, hxa]
    · simp only [upsertByAgent]
      rw [if_neg hx, countAgent_cons, countAgent_cons, ih]

lemma countAgent_upsert_le (r : OptimizedPromptRec) (aid : String) :
    ∀ store, countAgent store aid ≤ 1 → countAgent (upsertByAgent store r) aid ≤ 1 := by
  intro store
  induction store with
  | nil =>
    intro _
    by_cases hra : r.agentId = aid <;>
      simp [upsertByAgent, countAgent_cons, countAgent_nil, hra]
  | cons x xs ih =>
    intro h
    rw [countAgent_cons] at h
    by_cases hx : x.agentId = r.agentId
    · simp only [upsertByAgent]
      rw [if_pos hx, countAgent_cons]
      by_cases hra : r.agentId = aid
      · have hxa : x.agentId = aid := hx.trans hra
        rw [if_pos hxa] at h
        rw [if_pos hra]
        omega
      · have hxa : ¬ x.agentId = aid := by rw [hx]; exact hra
        rw [if_neg hxa] at h
        rw [if_neg hra]
        omega
    · simp only [upsertByAgent]
      rw [if_neg hx, countAgent_cons]
      by_cases hxa : x.agentId = aid
      · have hra : ¬ r.agentId = aid := by
          intro hr
          exact hx (hxa.trans hr.symm)
        rw [if_pos hxa] at h
        rw [if_pos hxa, countAgent_upsert_ne r aid hra xs]
        omega
      · rw [if_neg hxa] at h
        rw [if_neg hxa]
        simpa using ih (by omega)

/-- C3 (amended). At the end of every optimization run a best-prompt
record is written iff `finalScore > initialScore`; the write is an
upsert keyed by agent identity carrying exactly the run's final score,
best prompt and iteration count, and it preserves the at-most-one-
record-per-agent invariant.  The persisted score always strictly exceeds
the run's own initial score, but (see the counterexample) it is not
compared against, and may be lower than, the score of a previously
persisted record. -/
theorem c3_persist_upsert_on_improvement (env : OptEnv) (store : List OptimizedPromptRec)
    (agentId : String) (testCases : List TestCase) (originalPrompt : String)
    (maxIterations : Nat) (t : OptTrace)
    (ht : t = optimize env store agentId testCases originalPrompt maxIterations) :
    (jsGtNum t.result.finalScore t.result.initialScore = false → t.store = store)
  ∧ (jsGtNum t.result.finalScore t.result.initialScore = true →
      t.store = upsertByAgent store
        ⟨agentId, originalPrompt, t.result.optimizedPrompt, t.result.finalScore,
         t.result.iterations⟩)
  ∧ (∀ aid, countAgent store aid ≤ 1 → countAgent t.store aid ≤ 1) := by
  subst ht
  simp only [optimize]
  cases hge : jsGeNum (executeTests (env.chat 0) (env.runEval 0) agentId testCases).overallScore 1 with
  | true =>
    simp only [hge, if_true]
    refine ⟨fun _ => trivial, fun h => ?_, fun aid ha => ha⟩
    rw [jsGtNum_irrefl] at h
    cases h
  | false =>
    simp only [hge, Bool.false_eq_true, if_false]
    refine ⟨fun h => ?_, fun h => ?_, fun aid ha => ?_⟩
    · simp [h]
    · simp [h]
    · split
      · exact countAgent_upsert_le _ aid store ha
      · exact ha

/-- Counterexample for C3 as stated: with a previously persisted record
of score 9/10 for agent-1, a later run whose initial batch scores 3/10
and whose final batch scores 1/2 overwrites that record with score 1/2,
which is strictly lower than the previously persisted 9/10 — the
persisted score for an agent can decrease across runs. -/
theorem c3_counterexample :
    prevStore = [⟨"agent-1", "orig-0", "best-0", some (9/10), 1⟩]
  ∧ (optimize envImprove prevStore "agent-1" [sampleTestCase] "p0" 0).store =
      [⟨"agent-1", "p0", "p0", some (1/2), 0⟩]
  ∧ ((1:ℚ)/2 < 9/10) :=
  ⟨rfl, by with_unfolding_all rfl, by norm_num⟩

/-- Witness for C3 (amended) at a concrete improving run over an empty
store. -/
theorem c3_witness :
    (optimize envImprove [] "agent-1" [sampleTestCase] "p0" 0).store =
      upsertByAgent []
        ⟨"agent-1", "p0",
         (optimize envImprove [] "agent-1" [sampleTestCase] "p0" 0).result.optimizedPrompt,
         (optimize envImprove [] "agent-1" [sampleTestCase] "p0" 0).result.finalScore,
         (optimize envImprove [] "agent-1" [sampleTestCase] "p0" 0).result.iterations⟩ :=
  (c3_persist_upsert_on_improvement envImprove [] "agent-1" [sampleTestCase] "p0" 0 _ rfl).2.1
    (by with_unfolding_all rfl)

/-! ## C4: executeTests on an empty batch -/

/-- C4 (code bug). `executeTests` applied to an empty test-case list does
not fail fast: it returns normally, having performed JavaScript `0/0`
for the pass rate, the overall score and every aggregate metric, all of
which come back as the non-finite value NaN (`none`) instead of an
error.  The specification requires a zero-test batch to be rejected as
invalid input. -/
theorem c4_executeTests_empty_batch_returns_nan (chat : ChatOracle) (evalO : EvalOracle)
    (agentId : String) :
    executeTests chat evalO agentId [] =
      { evaluations := []
        passRate := none
        overallScore := none
        metrics := ⟨none, none, none, none, none⟩ } := by
  with_unfolding_all rfl

/-! ## C5: retry policy of the resilient caller -/

lemma withRetryGo_calls_le (op : Nat → CallOutcome α) :
    ∀ fuel attempt lastErr, (withRetryGo op attempt lastErr fuel).calls ≤ fuel := by
  intro fuel
  induction fuel with
  | zero => intro attempt lastErr; simp [withRetryGo]
  | succ fuel ih =>
    intro attempt lastErr
    simp only [withRetryGo]
    cases op attempt with
    | success v => simp
    | httpError s ra =>
      dsimp only
      by_cases hf : fatalStatus s = true
      · simp [hf]
      · by_cases h429 : s = 429
        · subst h429
          rw [if_neg hf, if_pos rfl]
          have := ih (attempt + 1) (some (CallOutcome.httpError 429 ra))
          show (withRetryGo op (attempt + 1) (some (CallOutcome.httpError 429 ra)) fuel).calls + 1
              ≤ fuel + 1
          omega
        · rw [if_neg hf, if_neg h429]
          have := ih (attempt + 1) (some (CallOutcome.httpError s ra))
          by_cases hz : fuel = 0
          · rw [if_pos hz]
            show (withRetryGo op (attempt + 1) (some (CallOutcome.httpError s ra)) fuel).calls + 1
                ≤ fuel + 1
            omega
          · rw [if_neg hz]
            show (withRetryGo op (attempt + 1) (some (CallOutcome.httpError s ra)) fuel).calls + 1
                ≤ fuel + 1
            omega
    | networkError =>
      dsimp only
      have := ih (attempt + 1) (some CallOutcome.networkError)
      by_cases hz : fuel = 0
      · rw [if_pos hz]
        show (withRetryGo op (attempt + 1) (some CallOutcome.networkError) fuel).calls + 1
            ≤ fuel + 1
        omega
      · rw [if_neg hz]
        show (withRetryGo op (attempt + 1) (some CallOutcome.networkError) fuel).calls + 1
            ≤ fuel + 1
        omega

/-- C5 (amended). The resilient call makes at most 3 attempts; a 4xx
status other than 429 fails immediately with a single call and no sleep;
a retryable (5xx / network) failure waits `2 ^ attempt` seconds before
the next attempt; a 429 sleeps the retry-after duration (60 s when the
header is absent) and then retries — but, contrary to the claim, a
rate-limit retry consumes the same attempt counter as a generic
failure: three consecutive 429s exhaust the 3-attempt budget and the
call fails. -/
theorem c5_withRetry_policy {α : Type} (op : Nat → CallOutcome α) :
    (withRetry op 3).calls ≤ 3
  ∧ (∀ s ra, op 0 = .httpError s ra → fatalStatus s = true →
      withRetry op 3 = ⟨.error (some (.httpError s ra)), 1, []⟩)
  ∧ (∀ ra v, op 0 = .httpError 429 ra → op 1 = .success v →
      withRetry op 3 = ⟨.ok v, 2, [(ra.getD 60) * 1000]⟩)
  ∧ (∀ v, op 0 = .networkError → op 1 = .success v →
      withRetry op 3 = ⟨.ok v, 2, [1000]⟩)
  ∧ (∀ v, op 0 = .networkError → op 1 = .networkError → op 2 = .success v →
      withRetry op 3 = ⟨.ok v, 3, [1000, 2000]⟩)
  ∧ (∀ ra0 ra1 ra2,
      op 0 = .httpError 429 ra0 → op 1 = .httpError 429 ra1 → op 2 = .httpError 429 ra2 →
      withRetry op 3 =
        ⟨.error (some (.httpError 429 ra2)), 3,
         [(ra0.getD 60) * 1000, (ra1.getD 60) * 1000, (ra2.getD 60) * 1000]⟩) := by
  refine ⟨withRetryGo_calls_le op 3 0 none, ?_, ?_, ?_, ?_, ?_⟩
  · intro s ra h0 hf
    simp [withRetry, withRetryGo, h0, hf]
  · intro ra v h0 h1
    simp [withRetry, withRetryGo, h0, h1, fatalStatus]
  · intro v h0 h1
    simp [withRetry, withRetryGo, h0, h1]
  · intro v h0 h1 h2
    simp [withRetry, withRetryGo, h0, h1, h2]
  · intro ra0 ra1 ra2 h0 h1 h2
    simp [withRetry, withRetryGo, h0, h1, h2, fatalStatus]

/-- Counterexample for C5 as stated: an operation that is rate-limited
on every attempt fails after exactly 3 calls — 429 retries are bounded
by the very same attempt counter as generic failures, not exempt from
it. -/
theorem c5_counterexample :
    (withRetry (fun _ => (CallOutcome.httpError 429 (some 5) : CallOutcome Nat)) 3).calls = 3
  ∧ (withRetry (fun _ => (CallOutcome.httpError 429 (some 5) : CallOutcome Nat)) 3).result =
      .error (some (.httpError 429 (some 5)))
  ∧ (withRetry (fun _ => (CallOutcome.httpError 429 (some 5) : CallOutcome Nat)) 3).sleepsMs =
      [5000, 5000, 5000] :=
  ⟨rfl, rfl, rfl⟩

/-- Witness for C5 (amended): a network error followed by a success
retries once after a 1 s backoff. -/
theorem c5_witness :
    (withRetry opNetThenOk 3).calls ≤ 3 ∧ withRetry opNetThenOk 3 = ⟨.ok 7, 2, [1000]⟩ :=
  ⟨(c5_withRetry_policy opNetThenOk).1,
   (c5_withRetry_policy opNetThenOk).2.2.2.1 7 rfl rfl⟩

/-! ## C6: criteria invariants of persisted test cases -/

/-- C6. For every persisted test case the criteria weights sum to 1
within the 0.01 tolerance and every required criterion has weight at
least 0.5 (both enforced by the schema validators every save runs
through), and normalizing a generator output with zero criteria
synthesizes exactly one fallback "Response Quality" criterion with
weight 1.0 and required set. -/
theorem c6_persisted_criteria_invariants :
    (∀ s tc, saveTestSuite s = .ok s → tc ∈ s.testCases →
      |criteriaWeightSum tc.successCriteria - 1| < 1/100
      ∧ ∀ c ∈ tc.successCriteria, c.required = true → (1:ℚ)/2 ≤ c.weight)
  ∧ normalizeSuccessCriteria [] = [fallbackCriterion]
  ∧ fallbackCriterion.weight = 1 ∧ fallbackCriterion.required = true
  ∧ fallbackCriterion.name = "Response Quality" := by
  refine ⟨?_, rfl, rfl, rfl, rfl⟩
  intro s tc hsave hmem
  have hvalid : validTestSuite s = true := by
    cases hv : validTestSuite s with
    | true => rfl
    | false =>
      unfold saveTestSuite at hsave
      rw [hv] at hsave
      simp at hsave
  have htc : validTestCase tc = true := by
    simp only [validTestSuite, Bool.and_eq_true, List.all_eq_true] at hvalid
    obtain ⟨⟨-, hall⟩, -⟩ := hvalid
    exact hall tc hmem
  simp only [validTestCase, Bool.and_eq_true, List.all_eq_true, decide_eq_true_eq] at htc
  obtain ⟨⟨-, hsum⟩, hall⟩ := htc
  refine ⟨hsum, ?_⟩
  intro c hc hreq
  have hcrit := hall c hc
  simp only [validCriterion, Bool.and_eq_true, decide_eq_true_eq, Bool.or_eq_true,
    Bool.not_eq_true'] at hcrit
  obtain ⟨-, hor⟩ := hcrit
  rcases hor with hfalse | hw
  · rw [hreq] at hfalse
    cases hfalse
  · exact hw

/-- Witness for C6 at the concrete sample suite. -/
theorem c6_witness :
    |criteriaWeightSum sampleTestCase.successCriteria - 1| < 1/100
    ∧ ∀ c ∈ sampleTestCase.successCriteria, c.required = true → (1:ℚ)/2 ≤ c.weight :=
  c6_persisted_criteria_invariants.1 sampleSuite sampleTestCase
    (by with_unfolding_all rfl) (List.mem_singleton.mpr rfl)

/-! ## C7: synthesized scripts start with a user turn -/

lemma fixScript_spec (s : List ScriptTurn) :
    fixScript s ≠ []
  ∧ (fixScript s).head?.map (·.role) = some "user"
  ∧ (s.head?.map (·.role) = some "user" → fixScript s = s)
  ∧ ((s = [] ∨ ¬ s.head?.map (·.role) = some "user") → fixScript s = greetingTurn :: s) := by
  cases s with
  | nil =>
    refine ⟨by simp [fixScript], by simp [fixScript, greetingTurn], ?_, ?_⟩
    · intro h
      simp at h
    · intro _
      simp [fixScript]
  | cons t rest =>
    by_cases hu : t.role = "user"
    · refine ⟨by simp [fixScript, hu], by simp [fixScript, hu], fun _ => by simp [fixScript, hu], ?_⟩
      intro h
      rcases h with h | h
      · cases h
      · simp [hu] at h
    · refine ⟨by simp [fixScript, hu], by simp [fixScript, hu, greetingTurn],
        fun h => ?_, fun _ => by simp [fixScript, hu]⟩
      simp [hu] at h

/-- C7. For every raw generator script, the repaired normalized script is
nonempty and its first turn has role "user"; the canonical greeting turn
is prepended exactly when the normalized script is empty or does not
already start with a user turn, and the script is kept unchanged
otherwise.  Consequently every test case produced by synthesis has a
nonempty conversation script starting with a user turn. -/
theorem c7_script_nonempty_first_user (raw : List RawTurn)
    (newId suiteId category : String) (tc : RawTestCase) :
    fixScript (raw.map normalizeTurn) ≠ []
  ∧ (fixScript (raw.map normalizeTurn)).head?.map (·.role) = some "user"
  ∧ ((raw.map normalizeTurn).head?.map (·.role) = some "user" →
      fixScript (raw.map normalizeTurn) = raw.map normalizeTurn)
  ∧ ((raw.map normalizeTurn = [] ∨ ¬ (raw.map normalizeTurn).head?.map (·.role) = some "user") →
      fixScript (raw.map normalizeTurn) = greetingTurn :: raw.map normalizeTurn)
  ∧ (normalizeTestCase newId suiteId category tc).conversationScript ≠ []
  ∧ (normalizeTestCase newId suiteId category tc).conversationScript.head?.map (·.role)
      = some "user" :=
  ⟨(fixScript_spec _).1, (fixScript_spec _).2.1, (fixScript_spec _).2.2.1,
   (fixScript_spec _).2.2.2,
   (fixScript_spec ((rawScriptOf tc).map normalizeTurn)).1,
   (fixScript_spec ((rawScriptOf tc).map normalizeTurn)).2.1⟩

/-- Witness for C7: an empty generator script is repaired to the single
greeting turn. -/
theorem c7_witness :
    fixScript (List.map normalizeTurn []) = greetingTurn :: List.map normalizeTurn [] :=
  (c7_script_nonempty_first_user [] "tc-1" "suite-1" "happy-path"
    ⟨none, none, none, none, none, none, none, none, none⟩).2.2.2.1 (Or.inl rfl)

/-! ## C8: turn-role normalization -/

/-- C8. Turn-role normalization maps a turn to "expected-agent" exactly
when the role string read from the role-carrying keys (role, then
speaker, then from) lowercases to one of the synonyms
agent / assistant / bot / ai / expected-agent, and to "user" in every
other case (including a missing role); in particular a malformed turn
carrying only a "speaker": "bot" field normalizes to "expected-agent". -/
theorem c8_role_mapping :
    (∀ t : RawTurn,
      ((normalizeTurn t).role = "expected-agent" ↔
        roleSynonyms.contains (rawTurnRoleStr t).toLower = true)
      ∧ ((normalizeTurn t).role = "expected-agent" ∨ (normalizeTurn t).role = "user"))
  ∧ (normalizeTurn (.obj [("speaker", .vstr "bot")])).role = "expected-agent" := by
  constructor
  · intro t
    by_cases h : roleSynonyms.contains (rawTurnRoleStr t).toLower = true
    · have hmem : (rawTurnRoleStr t).toLower ∈ roleSynonyms := by simpa using h
      have hrole : (normalizeTurn t).role = "expected-agent" := by simp [normalizeTurn, hmem]
      exact ⟨by rw [hrole]; exact ⟨fun _ => h, fun _ => rfl⟩, Or.inl hrole⟩
    · have h2 : roleSynonyms.contains (rawTurnRoleStr t).toLower = false := by simpa using h
      have hmem : (rawTurnRoleStr t).toLower ∉ roleSynonyms := by simpa using h
      have hrole : (normalizeTurn t).role = "user" := by simp [normalizeTurn, hmem]
      refine ⟨?_, Or.inr hrole⟩
      rw [hrole]
      constructor
      · intro hu
        exact absurd hu (by decide)
      · intro hc
        rw [hc] at h2
        exact Bool.noConfusion h2
  · with_unfolding_all rfl

/-! ## C9: applied audit records cannot be deleted -/

/-- C9. Every attempt to delete an optimization record in status applied
is rejected with the audit error at the persistence boundary — both for
a document-level delete of the record and for a query-level delete whose
filter selects it — so the deletion is never silently ignored or
silently performed, and the store is left unchanged (an erroring delete
returns no updated store). -/
theorem c9_applied_records_undeletable (store : List OptimizationRecord)
    (r : OptimizationRecord) (h : r.status = .applied) :
    docDeleteOne store r = .error auditErrorMsg
  ∧ ∀ filter, store.find? filter = some r →
      queryDeleteOne store filter = .error auditErrorMsg := by
  constructor
  · simp [docDeleteOne, h]
  · intro filter hf
    simp [queryDeleteOne, hf, h]

/-- Witness for C9 at a concrete one-record store. -/
theorem c9_witness :
    docDeleteOne [appliedRec] appliedRec = .error auditErrorMsg
  ∧ queryDeleteOne [appliedRec] (fun x => x.recordId == 1) = .error auditErrorMsg := by
  have h := c9_applied_records_undeletable [appliedRec] appliedRec rfl
  exact ⟨h.1, h.2 _ rfl⟩

/-! ## C10: the simulated transcript alternates starting with the user -/

lemma simulateConversationFrom_spec (chat : ChatOracle) (agentId : String) :
    ∀ (messages : List String) (cid : Option String) (i : Nat),
      ((simulateConversationFrom chat agentId messages cid).1).length = 2 * messages.length
    ∧ ((simulateConversationFrom chat agentId messages cid).1)[2*i]? =
        (messages[i]?).map (fun m => (⟨"user", m⟩ : ChatMessage))
    ∧ (((simulateConversationFrom chat agentId messages cid).1)[2*i+1]?).map (·.role) =
        (messages[i]?).map (fun _ => "assistant") := by
  intro messages
  induction messages with
  | nil =>
    intro cid i
    refine ⟨rfl, ?_, ?_⟩ <;> simp [simulateConversationFrom]
  | cons m rest ih =>
    intro cid i
    refine ⟨?_, ?_, ?_⟩
    · have := (ih (some (chat agentId m cid).conversationId) 0).1
      simp only [simulateConversationFrom, List.length_cons, List.length_cons] at this ⊢
      omega
    · cases i with
      | zero => simp [simulateConversationFrom]
      | succ j =>
        have h2 : 2 * (j + 1) = (2 * j + 1) + 1 := by ring
        rw [h2]
        simp only [simulateConversationFrom, List.getElem?_cons_succ]
        exact (ih (some (chat agentId m cid).conversationId) j).2.1
    · cases i with
      | zero => simp [simulateConversationFrom]
      | succ j =>
        have h2 : 2 * (j + 1) + 1 = (2 * j + 1) + 1 + 1 := by ring
        rw [h2]
        simp only [simulateConversationFrom, List.getElem?_cons_succ]
        exact (ih (some (chat agentId m cid).conversationId) j).2.2

/-- C10. For every chat oracle, agent identity and list of N scripted
user messages, the transcript built by `simulateConversation` has
exactly 2N turns; for every position i below N the turn at index 2i is
the user turn carrying the i-th input message and the turn at index
2i+1 has role "assistant" (so the roles strictly alternate starting with
"user" and the user turns list the input messages in order). -/
theorem c10_simulateConversation_turns (chat : ChatOracle) (agentId : String)
    (messages : List String) (i : Nat) :
    ((simulateConversation chat agentId messages).1).length = 2 * messages.length
  ∧ ((simulateConversation chat agentId messages).1)[2*i]? =
      (messages[i]?).map (fun m => (⟨"user", m⟩ : ChatMessage))
  ∧ (((simulateConversation chat agentId messages).1)[2*i+1]?).map (·.role) =
      (messages[i]?).map (fun _ => "assistant") :=
  simulateConversationFrom_spec chat agentId messages none i

/-! ## Concrete instantiations of the universally quantified theorems -/

/-- Witness for C1 at a concrete raw judge response with an out-of-range
metric. -/
theorem c1_witness :
    (evaluateResponse (rawEvalUniform (3/2))).metrics.relevance ≤ 1
  ∧ ((evaluateResponse (rawEvalUniform (3/2))).passed = true ↔
      (7:ℚ)/10 ≤ (evaluateResponse (rawEvalUniform (3/2))).score) :=
  ⟨(c1_evaluateResponse_clamps_and_averages (rawEvalUniform (3/2))).1.2,
   (c1_evaluateResponse_clamps_and_averages (rawEvalUniform (3/2))).2.2.2.2.2.1⟩

/-- Witness for C8 at a concrete malformed turn. -/
theorem c8_witness :
    (normalizeTurn (RawTurn.str "hi")).role = "expected-agent"
  ∨ (normalizeTurn (RawTurn.str "hi")).role = "user" :=
  (c8_role_mapping.1 (RawTurn.str "hi")).2

/-- Witness for C10 at a concrete two-message script. -/
theorem c10_witness :
    ((simulateConversation constChat "agent-1" ["Hi", "What are your prices?"]).1).length
      = 2 * (["Hi", "What are your prices?"] : List String).length :=
  (c10_simulateConversation_turns constChat "agent-1" ["Hi", "What are your prices?"] 0).1

end VoiceAI
